import Mathlib

/-!
Shallow embedding of the task-management store and its helper utilities.

Sources embedded:
* `src/store/useStore.ts` — the Zustand store: state shape, task actions
  (`addTask`, `updateTask`, `deleteTask`, `moveTask`), user actions
  (`setUser`, `logout`), theme/filter/sort setters, `initializeDemo`,
  `generateId`, and the persistence `partialize` function.
* `src/utils/dateHelpers.ts` — `getDueDateStatus` (the day-difference
  returned by date-fns `differenceInDays` is the function's input here).
* the helpers module — `truncate`.
* the `useTasks` hook — its `moveTask` wrapper.

Modelling conventions:
* Timestamps (`createdAt`, `updatedAt`, `dueDate`) are naturals — milliseconds
  since the epoch; the source stores them as ISO-8601 strings, whose ordering
  agrees with the numeric ordering, and `new Date().toISOString()` inside one
  action body is a single clock read passed as an explicit `now` argument.
* `Math.random().toString(36).substr(2, 9)` is an environment-supplied string
  argument `rand`; `generateId` concatenates it with the clock read exactly as
  the source does.
* DOM side effects (`document.documentElement.classList`) and the localStorage
  write itself are outside the state transition; `partialize` is embedded as
  the function from state to the persisted record.
-/

namespace TaskFlow

/-- `TaskStatus` from `src/types/index.ts`. -/
inductive TaskStatus where
  | todo
  | inProgress
  | review
  | done
deriving DecidableEq, Repr

/-- `TaskPriority` from `src/types/index.ts`. -/
inductive TaskPriority where
  | low
  | medium
  | high
  | urgent
deriving DecidableEq, Repr

/-- `TaskCategory` from `src/types/index.ts`. -/
inductive TaskCategory where
  | development
  | design
  | marketing
  | testing
  | meeting
  | bugFix
deriving DecidableEq, Repr

/-- `ThemeMode` from `src/types/index.ts`. -/
inductive ThemeMode where
  | light
  | dark
deriving DecidableEq, Repr

/-- `SortOption` from `src/types/index.ts`. -/
inductive SortOption where
  | newest
  | oldest
  | priority
  | dueDate
  | title
deriving DecidableEq, Repr

/-- `UserRole` from `src/types/index.ts`. -/
inductive UserRole where
  | admin
  | user
  | guest
deriving DecidableEq, Repr

/-- `Task` from `src/types/index.ts`; timestamps as epoch milliseconds. -/
structure Task where
  id : String
  title : String
  description : String
  status : TaskStatus
  priority : TaskPriority
  category : TaskCategory
  dueDate : Nat
  tags : List String
  assignee : Option String
  estimatedHours : Option Nat
  createdAt : Nat
  updatedAt : Nat
deriving DecidableEq, Repr

/-- `User` from `src/types/index.ts`. -/
structure User where
  id : String
  name : String
  email : String
  avatar : Option String
  role : UserRole
  joinedAt : Nat
deriving DecidableEq, Repr

/-- A date range, as in `TaskFilters.dateRange`. -/
structure DateRange where
  start : Nat
  «end» : Nat
deriving DecidableEq, Repr

/-- `TaskFilters` from `src/types/index.ts`: every field optional. -/
structure TaskFilters where
  status : Option (List TaskStatus) := none
  priority : Option (List TaskPriority) := none
  category : Option (List TaskCategory) := none
  searchQuery : Option String := none
  dateRange : Option DateRange := none
deriving DecidableEq, Repr

/-- `Partial<TaskFilters>`: a field that is `none` is absent from the patch;
`some v` means the key is present and replaces the prior value. -/
structure TaskFiltersPatch where
  status : Option (Option (List TaskStatus)) := none
  priority : Option (Option (List TaskPriority)) := none
  category : Option (Option (List TaskCategory)) := none
  searchQuery : Option (Option String) := none
  dateRange : Option (Option DateRange) := none
deriving DecidableEq, Repr

/-- `Partial<Task>` as taken by `updateTask`: each field optionally present.
A present field replaces the task's field in the spread
`{...task, ...updates, updatedAt: now}`; the trailing `updatedAt: now`
overrides any `updatedAt` carried by the patch. -/
structure TaskPatch where
  id : Option String := none
  title : Option String := none
  description : Option String := none
  status : Option TaskStatus := none
  priority : Option TaskPriority := none
  category : Option TaskCategory := none
  dueDate : Option Nat := none
  tags : Option (List String) := none
  assignee : Option (Option String) := none
  estimatedHours : Option (Option Nat) := none
  createdAt : Option Nat := none
  updatedAt : Option Nat := none
deriving DecidableEq, Repr

/-- `Omit<Task, "id" | "createdAt" | "updatedAt">` as taken by `addTask`. -/
structure TaskData where
  title : String
  description : String
  status : TaskStatus
  priority : TaskPriority
  category : TaskCategory
  dueDate : Nat
  tags : List String
  assignee : Option String
  estimatedHours : Option Nat
deriving DecidableEq, Repr

/-- The state slice of `AppState` in `src/store/useStore.ts` (the action
functions themselves are modelled below as transitions on this record). -/
structure AppState where
  tasks : List Task
  user : Option User
  theme : ThemeMode
  filters : TaskFilters
  sortBy : SortOption
  isLoading : Bool
deriving DecidableEq, Repr

/-- The initial state of the store (`useStore.ts` lines 78-83). -/
def initialState : AppState :=
  { tasks := []
    user := none
    theme := ThemeMode.light
    filters := {}
    sortBy := SortOption.newest
    isLoading := false }

/-- `generateId` (`useStore.ts` lines 64-66):
`` `${Date.now()}-${Math.random().toString(36).substr(2, 9)}` ``.
`now` is the `Date.now()` reading, `rand` the random base-36 suffix. -/
def generateId (now : Nat) (rand : String) : String :=
  toString now ++ "-" ++ rand

/-- The spread `{...task, ...updates, updatedAt: new Date().toISOString()}`
inside `updateTask` (`useStore.ts` lines 118-122): each field present in the
patch replaces the task's field, and `updatedAt` is then set to `now`
regardless of the patch. -/
def applyPatch (t : Task) (u : TaskPatch) (now : Nat) : Task :=
  { id := u.id.getD t.id
    title := u.title.getD t.title
    description := u.description.getD t.description
    status := u.status.getD t.status
    priority := u.priority.getD t.priority
    category := u.category.getD t.category
    dueDate := u.dueDate.getD t.dueDate
    tags := u.tags.getD t.tags
    assignee := u.assignee.getD t.assignee
    estimatedHours := u.estimatedHours.getD t.estimatedHours
    createdAt := u.createdAt.getD t.createdAt
    updatedAt := now }

/-- `addTask` (`useStore.ts` lines 95-106): builds the new task with a
generated id and `createdAt = updatedAt = now`, and prepends it. -/
def addTask (data : TaskData) (rand : String) (now : Nat) (s : AppState) :
    AppState :=
  let newTask : Task :=
    { id := generateId now rand
      title := data.title
      description := data.description
      status := data.status
      priority := data.priority
      category := data.category
      dueDate := data.dueDate
      tags := data.tags
      assignee := data.assignee
      estimatedHours := data.estimatedHours
      createdAt := now
      updatedAt := now }
  { s with tasks := newTask :: s.tasks }

/-- `updateTask` (`useStore.ts` lines 114-126): maps over the task list,
patching the tasks whose id matches. -/
def updateTask (id : String) (u : TaskPatch) (now : Nat) (s : AppState) :
    AppState :=
  { s with
    tasks := s.tasks.map fun t => if t.id = id then applyPatch t u now else t }

/-- `deleteTask` (`useStore.ts` lines 133-137): filters out the matching id. -/
def deleteTask (id : String) (s : AppState) : AppState :=
  { s with tasks := s.tasks.filter fun t => t.id ≠ id }

/-- `moveTask` (`useStore.ts` lines 144-146):
`get().updateTask(id, { status: newStatus })`. -/
def moveTask (id : String) (newStatus : TaskStatus) (now : Nat)
    (s : AppState) : AppState :=
  updateTask id { status := some newStatus } now s

/-- The `moveTask` wrapper of the `useTasks` hook: it calls the store's
`updateTask` with `{ status: newStatus, updatedAt: new Date().toISOString() }`;
`nowHook` is the wrapper's own clock read placed in the patch, `now` the clock
read happening inside the store's `updateTask`. -/
def useTasksMoveTask (taskId : String) (newStatus : TaskStatus)
    (nowHook : Nat) (now : Nat) (s : AppState) : AppState :=
  updateTask taskId { status := some newStatus, updatedAt := some nowHook }
    now s

/-- `setUser` (`useStore.ts` line 150). -/
def setUser (u : Option User) (s : AppState) : AppState :=
  { s with user := u }

/-- `logout` (`useStore.ts` line 152): `set({ user: null, tasks: [] })`;
Zustand's `set` merges, so every other field is preserved. -/
def logout (s : AppState) : AppState :=
  { s with user := none, tasks := [] }

/-- `toggleTheme` (`useStore.ts` lines 159-170); the DOM class mutation is a
presentation side effect outside the state. -/
def toggleTheme (s : AppState) : AppState :=
  { s with
    theme := if s.theme = ThemeMode.light then ThemeMode.dark
             else ThemeMode.light }

/-- `setTheme` (`useStore.ts` lines 172-179). -/
def setTheme (t : ThemeMode) (s : AppState) : AppState :=
  { s with theme := t }

/-- The shallow merge `{ ...state.filters, ...newFilters }` of `setFilters`. -/
def mergeFilters (f : TaskFilters) (p : TaskFiltersPatch) : TaskFilters :=
  { status := p.status.getD f.status
    priority := p.priority.getD f.priority
    category := p.category.getD f.category
    searchQuery := p.searchQuery.getD f.searchQuery
    dateRange := p.dateRange.getD f.dateRange }

/-- `setFilters` (`useStore.ts` lines 183-187). -/
def setFilters (p : TaskFiltersPatch) (s : AppState) : AppState :=
  { s with filters := mergeFilters s.filters p }

/-- `clearFilters` (`useStore.ts` line 189). -/
def clearFilters (s : AppState) : AppState :=
  { s with filters := {} }

/-- `setSortBy` (`useStore.ts` line 191). -/
def setSortBy (o : SortOption) (s : AppState) : AppState :=
  { s with sortBy := o }

/-- One day in milliseconds, as written `24 * 60 * 60 * 1000` in the source. -/
def msPerDay : Nat := 24 * 60 * 60 * 1000

/-- `initializeDemo` (`useStore.ts` lines 199-250): replaces the task list
with three fixed demo tasks; each gets its own `generateId` random suffix
(`r1`, `r2`, `r3`) and all clock reads happen at `now`. -/
def initializeDemo (r1 r2 r3 : String) (now : Nat) (s : AppState) :
    AppState :=
  { s with
    tasks :=
      [ { id := generateId now r1
          title := "Design Main Interface"
          description :=
            "Create a professional design for the homepage with attractive colors"
          status := TaskStatus.inProgress
          priority := TaskPriority.high
          category := TaskCategory.design
          dueDate := now + 2 * msPerDay
          tags := ["UI", "Design", "Homepage"]
          assignee := none
          estimatedHours := some 8
          createdAt := now
          updatedAt := now }
      , { id := generateId now r2
          title := "Fix Bug on Registration Page"
          description := "Users are unable to log in from the browser"
          status := TaskStatus.todo
          priority := TaskPriority.urgent
          category := TaskCategory.bugFix
          dueDate := now + 1 * msPerDay
          tags := ["Bug", "Auth", "Critical"]
          assignee := none
          estimatedHours := some 3
          createdAt := now
          updatedAt := now }
      , { id := generateId now r3
          title := "Write Unit Tests"
          description := "Write tests for the main components"
          status := TaskStatus.review
          priority := TaskPriority.medium
          category := TaskCategory.testing
          dueDate := now + 5 * msPerDay
          tags := ["Testing", "Quality"]
          assignee := none
          estimatedHours := some 10
          createdAt := now
          updatedAt := now } ] }

/-- The record persisted by the `partialize` option of the persist middleware:
exactly the three fields `tasks`, `user`, `theme`. -/
structure PersistedState where
  tasks : List Task
  user : Option User
  theme : ThemeMode
deriving DecidableEq, Repr

/-- `partialize` (`useStore.ts` lines 256-260): the subset of the state that
the persist middleware serializes to the `"taskflow-storage"` slot after every
mutation. -/
def partialize (s : AppState) : PersistedState :=
  { tasks := s.tasks
    user := s.user
    theme := s.theme }

/-- The three-way due-date bucket of `getDueDateStatus`
(`src/utils/dateHelpers.ts`). -/
inductive DueStatus where
  | overdue
  | dueSoon
  | upcoming
deriving DecidableEq, Repr

/-- The record returned by `getDueDateStatus`. -/
structure DueDateInfo where
  status : DueStatus
  color : String
  text : String
deriving DecidableEq, Repr

/-- `getDueDateStatus` (`dateHelpers.ts` lines 82-118). Its first step is
`getDaysUntil(dueDate)`, i.e. date-fns `differenceInDays(dueDate, now)`; that
signed whole-day difference is the `daysUntil` argument here, and the rest of
the function is embedded verbatim. -/
def getDueDateStatus (daysUntil : Int) : DueDateInfo :=
  if daysUntil < 0 then
    { status := DueStatus.overdue
      color := "text-red-600 dark:text-red-400"
      text := "Overdue by " ++ toString daysUntil.natAbs ++ " days" }
  else if daysUntil = 0 then
    { status := DueStatus.dueSoon
      color := "text-orange-600 dark:text-orange-400"
      text := "Due today" }
  else if daysUntil ≤ 3 then
    { status := DueStatus.dueSoon
      color := "text-yellow-600 dark:text-yellow-400"
      text := "Due in " ++ toString daysUntil ++ " days" }
  else
    { status := DueStatus.upcoming
      color := "text-green-600 dark:text-green-400"
      text := "Due in " ++ toString daysUntil ++ " days" }

/-- `truncate` from the helpers module:
`text.length <= maxLength ? text : text.substring(0, maxLength) + "..."`. -/
def truncate (text : String) (maxLength : Nat) : String :=
  if text.length ≤ maxLength then text
  else text.take maxLength ++ "..."

/-!
A trace machinery over the store: one constructor per store operation, with
the environment inputs (clock reads, random id suffixes) as explicit
arguments. This is the universe the invariant claim quantifies over.
-/

/-- One store operation together with its environment inputs. -/
inductive Action where
  | addTask (data : TaskData) (rand : String) (now : Nat)
  | updateTask (id : String) (u : TaskPatch) (now : Nat)
  | deleteTask (id : String)
  | moveTask (id : String) (newStatus : TaskStatus) (now : Nat)
  | setUser (u : Option User)
  | logout
  | toggleTheme
  | setTheme (t : ThemeMode)
  | setFilters (p : TaskFiltersPatch)
  | clearFilters
  | setSortBy (o : SortOption)
  | initializeDemo (r1 r2 r3 : String) (now : Nat)
deriving DecidableEq, Repr

/-- Apply one operation to the state. -/
def Action.apply (s : AppState) : Action → AppState
  | Action.addTask data rand now => TaskFlow.addTask data rand now s
  | Action.updateTask id u now => TaskFlow.updateTask id u now s
  | Action.deleteTask id => TaskFlow.deleteTask id s
  | Action.moveTask id st now => TaskFlow.moveTask id st now s
  | Action.setUser u => TaskFlow.setUser u s
  | Action.logout => TaskFlow.logout s
  | Action.toggleTheme => TaskFlow.toggleTheme s
  | Action.setTheme t => TaskFlow.setTheme t s
  | Action.setFilters p => TaskFlow.setFilters p s
  | Action.clearFilters => TaskFlow.clearFilters s
  | Action.setSortBy o => TaskFlow.setSortBy o s
  | Action.initializeDemo r1 r2 r3 now => TaskFlow.initializeDemo r1 r2 r3 now s

/-- Run a sequence of operations from a state. -/
def run (s : AppState) : List Action → AppState
  | [] => s
  | a :: rest => run (a.apply s) rest

/-- The ids held by the store. -/
def ids (s : AppState) : List String :=
  s.tasks.map Task.id

/-- Freshness of an operation's environment inputs relative to the state it
fires in: the generated id of `addTask` does not collide with a held id, the
three generated demo ids are pairwise distinct, and no update patch rewrites
the `id` field. Vacuously true for the remaining operations. -/
def Action.fresh (s : AppState) : Action → Bool
  | Action.addTask _ rand now => decide (generateId now rand ∉ ids s)
  | Action.updateTask _ u _ => u.id.isNone
  | Action.moveTask _ _ _ => true
  | Action.initializeDemo r1 r2 r3 now =>
      decide
        (List.Nodup [generateId now r1, generateId now r2, generateId now r3])
  | _ => true

/-- A whole trace is fresh when each step is fresh in the state it fires in. -/
def freshRun (s : AppState) : List Action → Bool
  | [] => true
  | a :: rest => a.fresh s && freshRun (a.apply s) rest

/-- Concrete task input used to evaluate the store operations. -/
def sampleData : TaskData :=
  { title := "Sample"
    description := "a sample task"
    status := TaskStatus.todo
    priority := TaskPriority.low
    category := TaskCategory.development
    dueDate := 1000
    tags := ["demo"]
    assignee := none
    estimatedHours := none }

/-- A concrete task as `addTask sampleData "a" 7` would create it. -/
def sampleTask : Task :=
  { id := "7-a"
    title := "Sample"
    description := "a sample task"
    status := TaskStatus.todo
    priority := TaskPriority.low
    category := TaskCategory.development
    dueDate := 1000
    tags := ["demo"]
    assignee := none
    estimatedHours := none
    createdAt := 7
    updatedAt := 7 }

/-- A concrete store state holding `sampleTask`. -/
def sampleState : AppState :=
  { initialState with tasks := [sampleTask] }

/-!
Helper lemmas shared by the claim theorems.
-/

/-- Patching only the tasks that match a missing id changes nothing. -/
theorem map_patch_of_not_mem (l : List Task) (id : String) (u : TaskPatch)
    (now : Nat) (h : ∀ t ∈ l, t.id ≠ id) :
    (l.map fun t => if t.id = id then applyPatch t u now else t) = l := by
  induction l with
  | nil => rfl
  | cons a l ih =>
      simp only [List.map_cons, List.cons.injEq]
      refine ⟨if_neg (h a (List.mem_cons_self a l)), ih ?_⟩
      exact fun t ht => h t (List.mem_cons_of_mem a ht)

/-- Filtering on a missing id keeps every task. -/
theorem filter_ne_of_not_mem (l : List Task) (id : String)
    (h : ∀ t ∈ l, t.id ≠ id) :
    (l.filter fun t => t.id ≠ id) = l := by
  induction l with
  | nil => rfl
  | cons a l ih =>
      simp only [List.filter_cons]
      rw [if_pos (by simpa using h a (List.mem_cons_self a l))]
      rw [ih fun t ht => h t (List.mem_cons_of_mem a ht)]

/-!
The claim theorems.
-/

/-- C6: for every prior store state, `logout()` results in a state whose task
list is empty and whose user is null. -/
theorem logout_clears_tasks_and_user (s : AppState) :
    (logout s).tasks = [] ∧ (logout s).user = none :=
  ⟨rfl, rfl⟩

/-- C10: for every prior store state, `logout()` leaves the `theme`,
`filters`, `sortBy`, and `isLoading` fields unchanged; only `tasks` and
`user` are modified. -/
theorem logout_frame (s : AppState) :
    (logout s).theme = s.theme ∧ (logout s).filters = s.filters ∧
    (logout s).sortBy = s.sortBy ∧ (logout s).isLoading = s.isLoading :=
  ⟨rfl, rfl, rfl, rfl⟩

/-- C5: for every store state and every id matching no task, `updateTask` and
`deleteTask` leave the state unchanged (the whole state, so in particular the
task list keeps its length, members and order), and neither signals an error
(both are total functions). -/
theorem missing_id_noop (s : AppState) (id : String) (u : TaskPatch)
    (now : Nat) (h : ∀ t ∈ s.tasks, t.id ≠ id) :
    updateTask id u now s = s ∧ deleteTask id s = s := by
  constructor
  · show { s with tasks := _ } = s
    rw [map_patch_of_not_mem s.tasks id u now h]
  · show { s with tasks := _ } = s
    rw [filter_ne_of_not_mem s.tasks id h]

/-- C5 witness: a concrete state holding one task with id `"7-a"`, targeted
with the absent id `"missing"`. -/
theorem missing_id_noop_witness :
    (∀ t ∈ sampleState.tasks, t.id ≠ "missing") ∧
    (updateTask "missing" { title := some "New" } 9 sampleState = sampleState ∧
     deleteTask "missing" sampleState = sampleState) :=
  ⟨by decide,
   missing_id_noop sampleState "missing" { title := some "New" } 9 (by decide)⟩

/-- C4: for every store state, id, status and clock reads, the store's
`moveTask id s` produces exactly `updateTask id {status := s}`, and so does
the `useTasks` hook's `moveTask` wrapper (whose extra `updatedAt` patch entry
is overwritten by `updateTask`'s own clock read). -/
theorem moveTask_refines_updateTask (s : AppState) (id : String)
    (st : TaskStatus) (nowHook now : Nat) :
    moveTask id st now s = updateTask id { status := some st } now s ∧
    useTasksMoveTask id st nowHook now s =
      updateTask id { status := some st } now s :=
  ⟨rfl, rfl⟩

/-- C8: the persisted record is exactly the `(tasks, user, theme)` triple of
the state — each field equals the state's — and it does not depend on
`filters`, `sortBy` or `isLoading`: two states agreeing on the three persisted
fields persist identically. -/
theorem partialize_exactly_three_fields (s₁ s₂ : AppState)
    (ht : s₁.tasks = s₂.tasks) (hu : s₁.user = s₂.user)
    (hth : s₁.theme = s₂.theme) :
    (partialize s₁).tasks = s₁.tasks ∧ (partialize s₁).user = s₁.user ∧
    (partialize s₁).theme = s₁.theme ∧ partialize s₁ = partialize s₂ := by
  refine ⟨rfl, rfl, rfl, ?_⟩
  simp [partialize, ht, hu, hth]

/-- C8 witness: two concrete states differing exactly in `filters`, `sortBy`
and `isLoading` persist the same record. -/
theorem partialize_exactly_three_fields_witness :
    (sampleState.tasks =
      ({ sampleState with
          sortBy := SortOption.title
          isLoading := true
          filters := { searchQuery := some "q" } } : AppState).tasks) ∧
    ((partialize sampleState).tasks = sampleState.tasks ∧
     (partialize sampleState).user = sampleState.user ∧
     (partialize sampleState).theme = sampleState.theme ∧
     partialize sampleState =
       partialize { sampleState with
          sortBy := SortOption.title
          isLoading := true
          filters := { searchQuery := some "q" } }) :=
  ⟨rfl,
   partialize_exactly_three_fields sampleState
     { sampleState with
        sortBy := SortOption.title
        isLoading := true
        filters := { searchQuery := some "q" } } rfl rfl rfl⟩

/-- C9: `truncate` returns the text unchanged when its length is at most
`maxLength`, and otherwise the first `maxLength` characters followed by
`"..."`. -/
theorem truncate_spec (text : String) (maxLength : Nat) :
    (text.length ≤ maxLength → truncate text maxLength = text) ∧
    (maxLength < text.length →
      truncate text maxLength = text.take maxLength ++ "...") := by
  constructor
  · intro h
    simp [truncate, h]
  · intro h
    simp [truncate, Nat.not_le.mpr h]

/-- C9 witness: the spec's two examples,
`truncate "This is a very long text" 10 = "This is a ..."` and
`truncate "short" 10 = "short"`. -/
theorem truncate_spec_witness :
    10 < "This is a very long text".length ∧
    truncate "This is a very long text" 10 = "This is a ..." ∧
    "short".length ≤ 10 ∧ truncate "short" 10 = "short" := by
  refine ⟨by decide, ?_, by decide, ?_⟩
  · rw [(truncate_spec "This is a very long text" 10).2 (by decide)]
    decide
  · exact (truncate_spec "short" 10).1 (by decide)

/-- C7: `getDueDateStatus` classifies by the day-difference: negative gives
`overdue` with text `"Overdue by N days"` for `N` the absolute difference,
zero gives `due-soon` with text `"Due today"`, 1 to 3 gives `due-soon`, and 4
or more gives `upcoming`. -/
theorem getDueDateStatus_classification (d : Int) :
    (d < 0 → (getDueDateStatus d).status = DueStatus.overdue ∧
      (getDueDateStatus d).text =
        "Overdue by " ++ toString d.natAbs ++ " days") ∧
    (d = 0 → (getDueDateStatus d).status = DueStatus.dueSoon ∧
      (getDueDateStatus d).text = "Due today") ∧
    (1 ≤ d ∧ d ≤ 3 → (getDueDateStatus d).status = DueStatus.dueSoon) ∧
    (4 ≤ d → (getDueDateStatus d).status = DueStatus.upcoming) := by
  refine ⟨?_, ?_, ?_, ?_⟩
  · intro h
    rw [getDueDateStatus, if_pos h]
    exact ⟨rfl, rfl⟩
  · intro h
    subst h
    exact ⟨rfl, rfl⟩
  · intro h
    rw [getDueDateStatus, if_neg (by omega), if_neg (by omega),
      if_pos h.2]
  · intro h
    rw [getDueDateStatus, if_neg (by omega), if_neg (by omega),
      if_neg (by omega)]

/-- C7 witness: the spec's examples — day-difference −5 is overdue with text
`"Overdue by 5 days"`, 0 is due-soon with text `"Due today"`, 2 is due-soon,
and 10 is upcoming. -/
theorem getDueDateStatus_classification_witness :
    (getDueDateStatus (-5)).status = DueStatus.overdue ∧
    (getDueDateStatus (-5)).text = "Overdue by 5 days" ∧
    (getDueDateStatus 0).status = DueStatus.dueSoon ∧
    (getDueDateStatus 0).text = "Due today" ∧
    (getDueDateStatus 2).status = DueStatus.dueSoon ∧
    (getDueDateStatus 10).status = DueStatus.upcoming := by
  obtain ⟨h1, h2⟩ := (getDueDateStatus_classification (-5)).1 (by decide)
  obtain ⟨h3, h4⟩ := (getDueDateStatus_classification 0).2.1 rfl
  have h5 := (getDueDateStatus_classification 2).2.2.1 (by decide)
  have h6 := (getDueDateStatus_classification 10).2.2.2 (by decide)
  refine ⟨h1, ?_, h3, h4, h5, h6⟩
  rw [h2]
  decide

/-- C1 counterexample: an update patch may rewrite the matched task's `id` —
the spread `{...task, ...updates, ...}` applies every field the patch holds,
`id` included. On a task with id `"7-a"`, `updateTask "7-a" {id: "hijacked"}`
changes the id. -/
theorem updateTask_id_not_preserved_cex :
    sampleState.tasks.map Task.id = ["7-a"] ∧
    (updateTask "7-a" { id := some "hijacked" } 8 sampleState).tasks.map
        Task.id = ["hijacked"] := by
  constructor
  · rfl
  · rfl

/-- C1 (amended): for a patch that does not carry the `id` or `createdAt`
fields, `updateTask` keeps the matched task's `id` and `createdAt`, sets its
`updatedAt` to the clock read `now` (hence to a value ≥ the previous
`updatedAt` whenever the clock has not gone backwards past it), and leaves
every other task — and the list's length and order — unchanged. -/
theorem updateTask_frame_amended (s : AppState) (id : String) (u : TaskPatch)
    (now : Nat) (hid : u.id = none) (hcr : u.createdAt = none)
    (hclock : ∀ t ∈ s.tasks, t.updatedAt ≤ now) :
    (updateTask id u now s).tasks.length = s.tasks.length ∧
    ∀ (i : Nat) (t : Task), s.tasks[i]? = some t →
      (t.id ≠ id → (updateTask id u now s).tasks[i]? = some t) ∧
      (t.id = id →
        (updateTask id u now s).tasks[i]? = some (applyPatch t u now) ∧
        (applyPatch t u now).id = t.id ∧
        (applyPatch t u now).createdAt = t.createdAt ∧
        (applyPatch t u now).updatedAt = now ∧
        t.updatedAt ≤ (applyPatch t u now).updatedAt) := by
  refine ⟨by simp [updateTask], ?_⟩
  intro i t hti
  have hmap : (updateTask id u now s).tasks[i]? =
      some (if t.id = id then applyPatch t u now else t) := by
    simp [updateTask, List.getElem?_map, hti]
  constructor
  · intro hne
    rw [hmap, if_neg hne]
  · intro heq
    rw [hmap, if_pos heq]
    refine ⟨rfl, ?_, ?_, rfl, ?_⟩
    · simp [applyPatch, hid]
    · simp [applyPatch, hcr]
    · simpa [applyPatch] using hclock t (List.getElem?_mem hti)

/-- C1 witness: patching only the title of the task with id `"7-a"` at clock
read 9, in a state whose single task was last updated at 7. -/
theorem updateTask_frame_amended_witness :
    (({ title := some "New" } : TaskPatch).id = none) ∧
    (({ title := some "New" } : TaskPatch).createdAt = none) ∧
    (∀ t ∈ sampleState.tasks, t.updatedAt ≤ 9) ∧
    ((updateTask "7-a" { title := some "New" } 9 sampleState).tasks.length =
        sampleState.tasks.length ∧
     ∀ (i : Nat) (t : Task), sampleState.tasks[i]? = some t →
       (t.id ≠ "7-a" →
         (updateTask "7-a" { title := some "New" } 9
             sampleState).tasks[i]? = some t) ∧
       (t.id = "7-a" →
         (updateTask "7-a" { title := some "New" } 9
             sampleState).tasks[i]? =
           some (applyPatch t { title := some "New" } 9) ∧
         (applyPatch t { title := some "New" } 9).id = t.id ∧
         (applyPatch t { title := some "New" } 9).createdAt = t.createdAt ∧
         (applyPatch t { title := some "New" } 9).updatedAt = 9 ∧
         t.updatedAt ≤ (applyPatch t { title := some "New" } 9).updatedAt)) :=
  ⟨rfl, rfl, by decide,
   updateTask_frame_amended sampleState "7-a" { title := some "New" } 9
     rfl rfl (by decide)⟩

/-- C3 counterexample: `generateId` is wall-clock plus random suffix, so two
`addTask` calls in the same millisecond with the same random draw produce the
same id — the second new task's id equals an id already in the list. -/
theorem addTask_fresh_id_cex :
    (addTask sampleData "a" 7 initialState).tasks.map Task.id = ["7-a"] ∧
    (addTask sampleData "a" 7
        (addTask sampleData "a" 7 initialState)).tasks.map Task.id =
      ["7-a", "7-a"] := by
  constructor
  · rfl
  · rfl

/-- C3 (amended): provided the generated id does not collide with an id
already in the list, `addTask` prepends one new task whose id is distinct
from every prior id and whose `createdAt` equals its `updatedAt` (both the
clock read), leaving the existing tasks unchanged and in their prior relative
order. -/
theorem addTask_spec_amended (s : AppState) (data : TaskData) (rand : String)
    (now : Nat) (hfresh : generateId now rand ∉ ids s) :
    (addTask data rand now s).tasks.length = s.tasks.length + 1 ∧
    (addTask data rand now s).tasks.tail = s.tasks ∧
    ∀ t, (addTask data rand now s).tasks.head? = some t →
      t.id ∉ ids s ∧ t.createdAt = t.updatedAt ∧ t.createdAt = now := by
  refine ⟨by simp [addTask], rfl, ?_⟩
  intro t ht
  have : t = { id := generateId now rand
               title := data.title
               description := data.description
               status := data.status
               priority := data.priority
               category := data.category
               dueDate := data.dueDate
               tags := data.tags
               assignee := data.assignee
               estimatedHours := data.estimatedHours
               createdAt := now
               updatedAt := now } := by
    simpa [addTask] using ht.symm
  subst this
  exact ⟨hfresh, rfl, rfl⟩

/-- C3 witness: adding a task at clock read 9 with random suffix `"b"` to a
state whose only task has id `"7-a"`. -/
theorem addTask_spec_amended_witness :
    generateId 9 "b" ∉ ids sampleState ∧
    ((addTask sampleData "b" 9 sampleState).tasks.length =
        sampleState.tasks.length + 1 ∧
     (addTask sampleData "b" 9 sampleState).tasks.tail = sampleState.tasks ∧
     ∀ t, (addTask sampleData "b" 9 sampleState).tasks.head? = some t →
       t.id ∉ ids sampleState ∧ t.createdAt = t.updatedAt ∧
       t.createdAt = 9) :=
  ⟨by decide, addTask_spec_amended sampleState sampleData "b" 9 (by decide)⟩

/-- `updateTask` with a patch not carrying `id` preserves the id list. -/
theorem ids_updateTask (s : AppState) (id : String) (u : TaskPatch)
    (now : Nat) (hid : u.id = none) : ids (updateTask id u now s) = ids s := by
  simp only [ids, updateTask, List.map_map]
  apply List.map_congr_left
  intro t ht
  by_cases h : t.id = id
  · simp [Function.comp, h, applyPatch, hid]
  · simp [Function.comp, h]

/-- One fresh operation preserves id uniqueness. -/
theorem nodup_ids_apply (s : AppState) (a : Action) (hs : (ids s).Nodup)
    (ha : a.fresh s = true) : (ids (a.apply s)).Nodup := by
  cases a with
  | addTask data rand now =>
      have hf : generateId now rand ∉ ids s := of_decide_eq_true ha
      exact List.nodup_cons.mpr ⟨hf, hs⟩
  | updateTask id u now =>
      have hid : u.id = none := Option.isNone_iff_eq_none.mp ha
      show (ids (updateTask id u now s)).Nodup
      rw [ids_updateTask s id u now hid]
      exact hs
  | deleteTask id =>
      exact hs.sublist ((List.filter_sublist s.tasks).map Task.id)
  | moveTask id st now =>
      show (ids (updateTask id { status := some st } now s)).Nodup
      rw [ids_updateTask s id { status := some st } now rfl]
      exact hs
  | setUser u => exact hs
  | logout => exact List.nodup_nil
  | toggleTheme => exact hs
  | setTheme t => exact hs
  | setFilters p => exact hs
  | clearFilters => exact hs
  | setSortBy o => exact hs
  | initializeDemo r1 r2 r3 now => exact of_decide_eq_true ha

/-- A fresh trace from a duplicate-free state keeps the ids duplicate-free. -/
theorem nodup_ids_run (acts : List Action) : ∀ s : AppState,
    (ids s).Nodup → freshRun s acts = true →
    (ids (run s acts)).Nodup := by
  induction acts with
  | nil => exact fun s hs _ => hs
  | cons a rest ih =>
      intro s hs h
      rw [freshRun] at h
      simp only [Bool.and_eq_true] at h
      obtain ⟨h1, h2⟩ := h
      exact ih (a.apply s) (nodup_ids_apply s a hs h1) h2

/-- C2 counterexample: `generateId` is wall clock plus random suffix, and the
store never checks for collisions — two `addTask` operations in the same
millisecond with the same random draw leave two tasks with the same id. -/
theorem store_ids_duplicate_cex :
    ids (run initialState
      [Action.addTask sampleData "a" 7, Action.addTask sampleData "a" 7]) =
      ["7-a", "7-a"] ∧
    ¬ (ids (run initialState
      [Action.addTask sampleData "a" 7,
       Action.addTask sampleData "a" 7])).Nodup := by
  constructor
  · rfl
  · decide

/-- C2 (amended): id uniqueness is an invariant of every operation sequence
from the empty initial state in which each generated id is fresh — each
`addTask` id differs from the held ids, `initializeDemo`'s three ids are
pairwise distinct — and no update patch rewrites the `id` field. -/
theorem store_ids_nodup_amended (acts : List Action)
    (h : freshRun initialState acts = true) :
    (ids (run initialState acts)).Nodup :=
  nodup_ids_run acts initialState List.nodup_nil h

/-- A concrete operation trace exercising every kind of store operation. -/
def demoTrace : List Action :=
  [ Action.addTask sampleData "a" 7
  , Action.addTask sampleData "b" 8
  , Action.updateTask "7-a" { title := some "Renamed" } 9
  , Action.moveTask "8-b" TaskStatus.done 10
  , Action.setUser none
  , Action.toggleTheme
  , Action.setTheme ThemeMode.light
  , Action.setFilters { searchQuery := some (some "q") }
  , Action.setSortBy SortOption.title
  , Action.clearFilters
  , Action.deleteTask "7-a"
  , Action.logout
  , Action.initializeDemo "r1" "r2" "r3" 20
  ]

/-- C2 witness: the concrete trace `demoTrace` is fresh and ends with
duplicate-free ids. -/
theorem store_ids_nodup_amended_witness :
    freshRun initialState demoTrace = true ∧
    (ids (run initialState demoTrace)).Nodup :=
  ⟨by decide, store_ids_nodup_amended demoTrace (by decide)⟩

end TaskFlow
